import Mathlib

/-!
Verification of the batchflow tutorial notebooks
(`examples/tutorials/03_ready_to_use_model.ipynb`, PyTorch variant, and
`examples/tutorials/03_ready_to_use_model_tf.ipynb`, TensorFlow variant)
against the repository's natural-language specification.

The notebooks are orchestration code only: they assemble declarative
pipelines from the external batchflow library and execute them.  We embed
the notebooks' pipeline definitions, run calls and recorded outputs as
Lean data, transcribed cell by cell from the source, and prove the spec's
claims about them.  Where a claim's truth depends on the external
pipeline engine (which is not part of this repository), the engine's
behaviour is modelled from the spec and marked as such.
-/

/-- A Python argument value as it appears in the notebooks' calls:
string, boolean and integer literals, the `None` literal, deferred
placeholder tokens (`B('images')`, `C('model')`, `D('num_classes')`,
`V('predictions')`, and `V('current_loss', mode='a')` with a mode),
callables passed by name (`list`, `VGG7`, `ResNet18`), dict literals,
list literals, and references to previously built pipelines. -/
inductive Value where
  | str (s : String)
  | boolean (b : Bool)
  | num (n : Int)
  | pynone
  | tok (kind : String) (arg : String)
  | tokM (kind : String) (arg : String) (mode : String)
  | callable (f : String)
  | dict (entries : List (String × Value))
  | listVal (items : List Value)
  | pipelineRef (p : String)

/-- One step of a declarative pipeline chain: the method name, its
positional arguments and its keyword arguments, in source order. -/
structure Step where
  method : String
  posArgs : List Value
  kwArgs : List (String × Value)

/-- A `run(...)` execution call: positional arguments and keyword
arguments, in source order. -/
structure RunCall where
  posArgs : List Value
  kwArgs : List (String × Value)

/-- A top-level call on a pipeline or metrics object in a notebook:
receiver, method, positional and keyword arguments. -/
structure TopCall where
  receiver : String
  method : String
  posArgs : List Value
  kwArgs : List (String × Value)

/-- The PyTorch notebook's training template (cell 5):
`Pipeline(config=config).init_variable('loss_history', init_on_each_run=list)
.init_variable('current_loss').init_model('dynamic', C('model'), 'conv_nn',
config=\x7b...\x7d).to_array(channels='first', dtype='float32')
.train_model('conv_nn', B('images'), B('labels'), fetches='loss',
save_to=V('current_loss'), use_lock=True)
.update_variable('loss_history', V('current_loss', mode='a'))`. -/
def torchTrainSteps : List Step :=
  [ ⟨"init_variable", [.str "loss_history"], [("init_on_each_run", .callable "list")]⟩,
    ⟨"init_variable", [.str "current_loss"], []⟩,
    ⟨"init_model", [.str "dynamic", .tok "C" "model", .str "conv_nn"],
      [("config", .dict
        [("inputs/images/shape", .tok "B" "image_shape"),
         ("inputs/labels/classes", .tok "D" "num_classes"),
         ("initial_block/inputs", .str "images")])]⟩,
    ⟨"to_array", [], [("channels", .str "first"), ("dtype", .str "float32")]⟩,
    ⟨"train_model", [.str "conv_nn", .tok "B" "images", .tok "B" "labels"],
      [("fetches", .str "loss"), ("save_to", .tok "V" "current_loss"),
       ("use_lock", .boolean true)]⟩,
    ⟨"update_variable", [.str "loss_history", .tokM "V" "current_loss" "a"], []⟩ ]

/-- The PyTorch notebook's test pipeline steps (cell 8), the declarative
chain on `dataset.test.p` before the final chained `.run(...)`:
`import_model('conv_nn', train_pipeline)`, two `init_variable`,
`to_array(channels='first', dtype='float32')`,
`predict_model('conv_nn', B('images'), fetches='predictions',
save_to=V('predictions'))`, and `gather_metrics('class',
targets=B('labels'), predictions=V('predictions'), fmt='logits', axis=-1,
save_to=V('metrics', mode='w'))`. -/
def torchTestSteps : List Step :=
  [ ⟨"import_model", [.str "conv_nn", .pipelineRef "train_pipeline"], []⟩,
    ⟨"init_variable", [.str "predictions"], []⟩,
    ⟨"init_variable", [.str "metrics"], [("init_on_each_run", .pynone)]⟩,
    ⟨"to_array", [], [("channels", .str "first"), ("dtype", .str "float32")]⟩,
    ⟨"predict_model", [.str "conv_nn", .tok "B" "images"],
      [("fetches", .str "predictions"), ("save_to", .tok "V" "predictions")]⟩,
    ⟨"gather_metrics", [.str "class"],
      [("targets", .tok "B" "labels"), ("predictions", .tok "V" "predictions"),
       ("fmt", .str "logits"), ("axis", .num (-1)),
       ("save_to", .tokM "V" "metrics" "w")]⟩ ]

/-- The TensorFlow notebook's training template (cell 13): as the PyTorch
one, except `to_array()` takes no arguments, `train_model` passes
`images=B('images')` and `labels=B('labels')` as keyword arguments, and
no `use_lock` argument is supplied. -/
def tfTrainSteps : List Step :=
  [ ⟨"init_variable", [.str "loss_history"], [("init_on_each_run", .callable "list")]⟩,
    ⟨"init_variable", [.str "current_loss"], []⟩,
    ⟨"init_model", [.str "dynamic", .tok "C" "model", .str "conv_nn"],
      [("config", .dict
        [("inputs/images/shape", .tok "B" "image_shape"),
         ("inputs/labels/classes", .tok "D" "num_classes"),
         ("initial_block/inputs", .str "images")])]⟩,
    ⟨"to_array", [], []⟩,
    ⟨"train_model", [.str "conv_nn"],
      [("fetches", .str "loss"), ("images", .tok "B" "images"),
       ("labels", .tok "B" "labels"), ("save_to", .tok "V" "current_loss")]⟩,
    ⟨"update_variable", [.str "loss_history", .tokM "V" "current_loss" "a"], []⟩ ]

/-- The TensorFlow notebook's test pipeline steps (cell 23): as the
PyTorch ones, except `to_array()` takes no arguments, `predict_model`
passes `images=B('images')` as a keyword argument, and `gather_metrics`
saves with `V('metrics', mode='a')`. -/
def tfTestSteps : List Step :=
  [ ⟨"import_model", [.str "conv_nn", .pipelineRef "train_pipeline"], []⟩,
    ⟨"init_variable", [.str "predictions"], []⟩,
    ⟨"init_variable", [.str "metrics"], [("init_on_each_run", .pynone)]⟩,
    ⟨"to_array", [], []⟩,
    ⟨"predict_model", [.str "conv_nn"],
      [("fetches", .str "predictions"), ("images", .tok "B" "images"),
       ("save_to", .tok "V" "predictions")]⟩,
    ⟨"gather_metrics", [.str "class"],
      [("targets", .tok "B" "labels"), ("predictions", .tok "V" "predictions"),
       ("fmt", .str "logits"), ("axis", .num (-1)),
       ("save_to", .tokM "V" "metrics" "a")]⟩ ]

/-- PyTorch notebook, cell 7: `train_pipeline.run(BATCH_SIZE, shuffle=True,
n_epochs=1, drop_last=True, bar=True, prefetch=1)` with `BATCH_SIZE = 64`. -/
def torchTrainRun : RunCall :=
  ⟨[.num 64],
   [("shuffle", .boolean true), ("n_epochs", .num 1), ("drop_last", .boolean true),
    ("bar", .boolean true), ("prefetch", .num 1)]⟩

/-- PyTorch notebook, cell 8 (end of the test pipeline chain):
`.run(BATCH_SIZE, shuffle=True, n_epochs=1, drop_last=False, bar=True)`. -/
def torchTestRun : RunCall :=
  ⟨[.num 64],
   [("shuffle", .boolean true), ("n_epochs", .num 1), ("drop_last", .boolean false),
    ("bar", .boolean true)]⟩

/-- TensorFlow notebook, cell 18: `train_pipeline.run(BATCH_SIZE,
shuffle=True, n_epochs=1, drop_last=True, bar=True, prefetch=1)`. -/
def tfTrainRun : RunCall :=
  ⟨[.num 64],
   [("shuffle", .boolean true), ("n_epochs", .num 1), ("drop_last", .boolean true),
    ("bar", .boolean true), ("prefetch", .num 1)]⟩

/-- TensorFlow notebook, cell 23 (end of the test pipeline chain):
`.run(BATCH_SIZE, shuffle=True, n_epochs=1, drop_last=False, bar=True)`. -/
def tfTestRun : RunCall :=
  ⟨[.num 64],
   [("shuffle", .boolean true), ("n_epochs", .num 1), ("drop_last", .boolean false),
    ("bar", .boolean true)]⟩

/-- All four `run` calls appearing in the two notebooks. -/
def allRunCalls : List RunCall :=
  [torchTrainRun, torchTestRun, tfTrainRun, tfTestRun]

/-- The six parameter names the spec gives for the execution entry point:
`run(batch_size, shuffle, n_epochs, drop_last, prefetch, progress_bar)`. -/
def specRunParams : List String :=
  ["batch_size", "shuffle", "n_epochs", "drop_last", "prefetch", "progress_bar"]

/-- The keyword-parameter names actually used by the notebooks' run calls
(the batch size is always passed positionally): the progress bar flag is
named `bar`, not `progress_bar`. -/
def actualRunKwParams : List String :=
  ["shuffle", "n_epochs", "drop_last", "prefetch", "bar"]

/-- C1, counterexample: the claim says every argument of every `run` call
is named by one of the spec's six parameters; but the very first run call
(PyTorch training, cell 7) passes a keyword argument `bar`, and `bar` is
not among `batch_size, shuffle, n_epochs, drop_last, prefetch,
progress_bar`. -/
theorem c1_counterexample :
    "bar" ∈ torchTrainRun.kwArgs.map Prod.fst ∧ "bar" ∉ specRunParams := by
  decide

/-- C1, amended: every pipeline execution in the notebooks goes through
`run`; each run call passes the batch size as its single positional
argument, and every keyword argument is one of `shuffle, n_epochs,
drop_last, prefetch, bar` — the progress-bar flag is named `bar`, not
`progress_bar`. -/
theorem c1_amended :
    (allRunCalls.all fun c =>
      c.posArgs.length == 1 &&
      c.kwArgs.all fun kv => actualRunKwParams.contains kv.1) = true ∧
    torchTrainRun.posArgs = [Value.num 64] ∧
    torchTestRun.posArgs = [Value.num 64] ∧
    tfTrainRun.posArgs = [Value.num 64] ∧
    tfTestRun.posArgs = [Value.num 64] := by
  refine ⟨by decide, rfl, rfl, rfl, rfl⟩

/-- The ordered sequence of top-level pipeline/metrics calls executed by
the PyTorch notebook after the pipelines are assembled: the training run
(cell 7), the test pipeline's chained run (cell 8), metrics retrieval
(cell 9), the two metric evaluations (cells 10 and 11), and the model
save (cell 12): `train_pipeline.save_model_now('conv_nn',
path='path/to/model.torch')`. -/
def torchTopCalls : List TopCall :=
  [ ⟨"train_pipeline", "run", torchTrainRun.posArgs, torchTrainRun.kwArgs⟩,
    ⟨"test_pipeline", "run", torchTestRun.posArgs, torchTestRun.kwArgs⟩,
    ⟨"test_pipeline", "get_variable", [.str "metrics"], []⟩,
    ⟨"metrics", "evaluate", [.str "accuracy"], []⟩,
    ⟨"metrics", "evaluate",
      [.listVal [.str "false_positive_rate", .str "false_negative_rate"]],
      [("multiclass", .pynone)]⟩,
    ⟨"train_pipeline", "save_model_now", [.str "conv_nn"],
      [("path", .str "path/to/model.torch")]⟩ ]

/-- The ordered sequence of top-level pipeline/metrics calls executed by
the TensorFlow notebook: the training run (cell 18), the test pipeline's
chained run (cell 23), metrics retrieval (cell 25), the two metric
evaluations (cells 28 and 29), and the model save (cell 31):
`train_pipeline.save_model_now('conv_nn', path='path/to/save')`. -/
def tfTopCalls : List TopCall :=
  [ ⟨"train_pipeline", "run", tfTrainRun.posArgs, tfTrainRun.kwArgs⟩,
    ⟨"test_pipeline", "run", tfTestRun.posArgs, tfTestRun.kwArgs⟩,
    ⟨"test_pipeline", "get_variable", [.str "metrics"], []⟩,
    ⟨"metrics", "evaluate", [.str "accuracy"], []⟩,
    ⟨"metrics", "evaluate",
      [.listVal [.str "false_positive_rate", .str "false_negative_rate"]],
      [("multiclass", .pynone)]⟩,
    ⟨"train_pipeline", "save_model_now", [.str "conv_nn"],
      [("path", .str "path/to/save")]⟩ ]

/-- C2: in both notebooks the training pipeline's run call passes
`n_epochs=1` (one epoch of training), the metric evaluations come after
that run, and the model artifact is saved last, via
`save_model_now(name, path=...)` invoked on the training pipeline with
the model name positional and the path a keyword argument. -/
theorem c2_one_epoch_then_metrics_then_save :
    torchTrainRun.kwArgs.lookup "n_epochs" = some (Value.num 1) ∧
    tfTrainRun.kwArgs.lookup "n_epochs" = some (Value.num 1) ∧
    torchTopCalls.map (fun c => (c.receiver, c.method)) =
      [("train_pipeline", "run"), ("test_pipeline", "run"),
       ("test_pipeline", "get_variable"), ("metrics", "evaluate"),
       ("metrics", "evaluate"), ("train_pipeline", "save_model_now")] ∧
    tfTopCalls.map (fun c => (c.receiver, c.method)) =
      [("train_pipeline", "run"), ("test_pipeline", "run"),
       ("test_pipeline", "get_variable"), ("metrics", "evaluate"),
       ("metrics", "evaluate"), ("train_pipeline", "save_model_now")] ∧
    (torchTopCalls.getLast?).map TopCall.posArgs = some [Value.str "conv_nn"] ∧
    (torchTopCalls.getLast?).map (fun c => c.kwArgs.lookup "path") =
      some (some (Value.str "path/to/model.torch")) ∧
    (tfTopCalls.getLast?).map TopCall.posArgs = some [Value.str "conv_nn"] ∧
    (tfTopCalls.getLast?).map (fun c => c.kwArgs.lookup "path") =
      some (some (Value.str "path/to/save")) := by
  refine ⟨rfl, rfl, rfl, rfl, rfl, rfl, rfl, rfl⟩

/-- All pipeline steps declared in the two notebooks' four pipeline
definitions (training template and test chain of each notebook). -/
def allPipelineSteps : List Step :=
  torchTrainSteps ++ torchTestSteps ++ tfTrainSteps ++ tfTestSteps

/-- The operations the spec enumerates as the external pipeline API used
by the notebooks. -/
def specOps : List String :=
  ["init_variable", "init_model", "train_model", "predict_model",
   "gather_metrics", "evaluate", "save_model_now"]

/-- C4, counterexample: the claim says every step appearing in a pipeline
definition has its name in the spec's list; but `to_array` is a step of
the PyTorch training template (and of all four pipelines) and is not in
that list. -/
theorem c4_counterexample :
    "to_array" ∈ torchTrainSteps.map Step.method ∧ "to_array" ∉ specOps := by
  decide

/-- C4, amended: every step appearing in a pipeline definition in the
notebooks is one of `init_variable`, `init_model`, `import_model`,
`to_array`, `train_model`, `predict_model`, `update_variable`,
`gather_metrics`; the spec's list omits `to_array`, `update_variable` and
`import_model` (while `evaluate` and `save_model_now` are invoked on the
metrics object and the pipeline outside the pipeline definitions). -/
theorem c4_amended :
    (allPipelineSteps.all fun s =>
      ["init_variable", "init_model", "import_model", "to_array",
       "train_model", "predict_model", "update_variable",
       "gather_metrics"].contains s.method) = true := by
  decide

/-- C7, counterexample: the claim says the `train_model` step is
configured with `use_lock=True` in every training pipeline; but the
TensorFlow notebook's training template has a `train_model` step (index
4) that passes no `use_lock` argument at all. -/
theorem c7_counterexample :
    (tfTrainSteps.map Step.method).get? 4 = some "train_model" ∧
    (tfTrainSteps.all fun s =>
      s.method != "train_model" ||
      !(s.kwArgs.map Prod.fst).contains "use_lock") = true := by
  refine ⟨rfl, by decide⟩

/-- C7, amended: the notebooks describe (in prose only) that the external
library trains under a serialized per-batch lock; in the pipeline code,
the PyTorch notebook's `train_model` step is configured with
`use_lock=True`, while the TensorFlow notebook's `train_model` step
passes no `use_lock` argument. -/
theorem c7_amended :
    ((torchTrainSteps.filter fun s => s.method == "train_model").map
      fun s => s.kwArgs.lookup "use_lock") = [some (Value.boolean true)] ∧
    ((tfTrainSteps.filter fun s => s.method == "train_model").map
      fun s => s.kwArgs.lookup "use_lock") = [none] := by
  refine ⟨rfl, rfl⟩

/-- The category index the claim assigns to each kind of pipeline step,
in the order the spec lists them: variable initialization, model
initialization or import, array conversion, train/predict step, metrics
gathering.  Steps outside these categories (such as `update_variable`)
get no index. -/
def stepCat : String → Option Nat
  | "init_variable" => some 0
  | "init_model" => some 1
  | "import_model" => some 1
  | "to_array" => some 2
  | "train_model" => some 3
  | "predict_model" => some 3
  | "gather_metrics" => some 4
  | _ => none

/-- The category indices of a pipeline's steps, in declaration order,
skipping uncategorized steps. -/
def catsOf (steps : List Step) : List Nat :=
  steps.filterMap fun s => stepCat s.method

/-- Whether a list of category indices is non-decreasing. -/
def sortedCats : List Nat → Bool
  | a :: b :: rest => decide (a ≤ b) && sortedCats (b :: rest)
  | _ => true

mutual
/-- The kinds of the deferred placeholder tokens occurring in a value,
including inside dict and list literals: `"B"` for batch contents,
`"C"` for config values, `"D"` for dataset-derived values, `"V"` for
pipeline variables (and `"F"` for callables, which the notebooks import
but never use). -/
def tokenKinds : Value → List String
  | .tok k _ => [k]
  | .tokM k _ _ => [k]
  | .dict es => tokenKindsEntries es
  | .listVal vs => tokenKindsList vs
  | _ => []

/-- Token kinds occurring in a list of values. -/
def tokenKindsList : List Value → List String
  | [] => []
  | v :: vs => tokenKinds v ++ tokenKindsList vs

/-- Token kinds occurring in the values of a dict literal. -/
def tokenKindsEntries : List (String × Value) → List String
  | [] => []
  | (_, v) :: es => tokenKinds v ++ tokenKindsEntries es
end

/-- All token kinds occurring in a step's positional and keyword
arguments. -/
def stepTokenKinds (s : Step) : List String :=
  tokenKindsList s.posArgs ++ tokenKindsEntries s.kwArgs

/-- C3, counterexample: the claim says the declared steps of every
pipeline occur in the order variable initialization, then model
initialization or import, then array conversion, then train/predict,
then metrics gathering; but in the test pipelines the `import_model`
step comes first, before the `init_variable` steps, so the categorized
step sequence of the PyTorch test pipeline is not in the claimed order. -/
theorem c3_counterexample :
    sortedCats (catsOf torchTestSteps) = false ∧
    (torchTestSteps.map Step.method).get? 0 = some "import_model" ∧
    (torchTestSteps.map Step.method).get? 1 = some "init_variable" := by
  refine ⟨by decide, rfl, rfl⟩

/-- C3, amended: in the training templates the declared steps occur in
the order variable initialization, then model initialization, then array
conversion, then the train step; in the test pipelines the model import
comes first, followed by variable initialization, array conversion, the
predict step, and metrics gathering.  In all four pipelines, every
deferred placeholder token appearing in a step argument is one of `B`,
`C`, `D`, `V`. -/
theorem c3_amended :
    catsOf torchTrainSteps = [0, 0, 1, 2, 3] ∧
    catsOf tfTrainSteps = [0, 0, 1, 2, 3] ∧
    catsOf torchTestSteps = [1, 0, 0, 2, 3, 4] ∧
    catsOf tfTestSteps = [1, 0, 0, 2, 3, 4] ∧
    sortedCats (catsOf torchTrainSteps) = true ∧
    sortedCats (catsOf tfTrainSteps) = true ∧
    sortedCats (catsOf torchTestSteps.tail) = true ∧
    sortedCats (catsOf tfTestSteps.tail) = true ∧
    ((allPipelineSteps.map stepTokenKinds).all fun ks =>
      ks.all ["B", "C", "D", "V"].contains) = true := by
  refine ⟨rfl, rfl, rfl, rfl, by decide, by decide, by decide, by decide, by decide⟩

/-- The recorded result of a `metrics.evaluate(...)` call: a scalar for a
single metric name, or a mapping from metric name to a per-class array
for a list of names. -/
inductive EvalResult where
  | scalar (q : ℚ)
  | mapping (entries : List (String × List ℚ))

/-- One recorded `metrics.evaluate(...)` call: its metric-name argument,
its keyword options, and the output recorded in the notebook. -/
structure EvalCall where
  arg : Value
  kwArgs : List (String × Value)
  result : EvalResult

/-- PyTorch notebook, cell 10: `metrics.evaluate('accuracy')` returned
`1.0`. -/
def torchEvalAccuracy : EvalCall := ⟨.str "accuracy", [], .scalar 1⟩

/-- PyTorch notebook, cell 11: `metrics.evaluate(['false_positive_rate',
'false_negative_rate'], multiclass=None)` returned a dict of two arrays
of ten zeros. -/
def torchEvalRates : EvalCall :=
  ⟨.listVal [.str "false_positive_rate", .str "false_negative_rate"],
   [("multiclass", .pynone)],
   .mapping [("false_negative_rate", List.replicate 10 0),
             ("false_positive_rate", List.replicate 10 0)]⟩

/-- TensorFlow notebook, cell 28: `metrics.evaluate('accuracy')` returned
`0.9671576433121019`. -/
def tfEvalAccuracy : EvalCall :=
  ⟨.str "accuracy", [], .scalar (mkRat 9671576433121019 10000000000000000)⟩

/-- TensorFlow notebook, cell 29: `metrics.evaluate(['false_positive_rate',
'false_negative_rate'], multiclass=None)` returned a dict of two
ten-element arrays of per-class rates (decimal outputs written here as
exact fractions over ten to the eighth). -/
def tfEvalRates : EvalCall :=
  ⟨.listVal [.str "false_positive_rate", .str "false_negative_rate"],
   [("multiclass", .pynone)],
   .mapping
     [("false_negative_rate",
       [mkRat 398089 100000000, 0, mkRat 5910263 100000000,
        mkRat 2296624 100000000, mkRat 2156529 100000000,
        mkRat 2501792 100000000, mkRat 1466485 100000000,
        mkRat 3667444 100000000, mkRat 13852718 100000000,
        mkRat 1652581 100000000]),
      ("false_positive_rate",
       [mkRat 1185107 100000000, mkRat 326121 100000000,
        mkRat 45192 100000000, mkRat 86770 100000000,
        mkRat 143490 100000000, mkRat 203828 100000000,
        mkRat 866460 100000000, mkRat 178542 100000000,
        mkRat 54209 100000000, mkRat 543000 100000000])]⟩

/-- The four evaluate calls recorded in the two notebooks, in order. -/
def recordedEvalCalls : List EvalCall :=
  [torchEvalAccuracy, torchEvalRates, tfEvalAccuracy, tfEvalRates]

/-- Whether a recorded evaluate call has the shape the spec describes: a
single metric name yields a scalar; a list of metric names yields a
mapping whose keys are exactly the requested names. -/
def evalShapeOk (c : EvalCall) : Bool :=
  match c.arg, c.result with
  | .str _, .scalar _ => true
  | .listVal vs, .mapping m =>
      let req := vs.filterMap fun v =>
        match v with | .str s => some s | _ => none
      req.length == vs.length
        && req.all (m.map Prod.fst).contains
        && (m.map Prod.fst).all req.contains
  | _, _ => false

/-- C5: in both notebooks the metrics object is retrieved by
`get_variable('metrics')` on the test pipeline, and every recorded
`evaluate` call has the documented shape — a single metric name returns
a scalar, and a list of metric names returns a mapping whose keys are
exactly the requested names. -/
theorem c5_evaluate_shapes :
    torchTopCalls.get? 2 =
      some ⟨"test_pipeline", "get_variable", [.str "metrics"], []⟩ ∧
    tfTopCalls.get? 2 =
      some ⟨"test_pipeline", "get_variable", [.str "metrics"], []⟩ ∧
    (torchTopCalls.get? 3).map TopCall.posArgs = some [torchEvalAccuracy.arg] ∧
    (torchTopCalls.get? 4).map TopCall.posArgs = some [torchEvalRates.arg] ∧
    (tfTopCalls.get? 3).map TopCall.posArgs = some [tfEvalAccuracy.arg] ∧
    (tfTopCalls.get? 4).map TopCall.posArgs = some [tfEvalRates.arg] ∧
    recordedEvalCalls.all evalShapeOk = true := by
  refine ⟨rfl, rfl, rfl, rfl, rfl, rfl, by decide⟩

/-- Every metric value recorded in the notebooks' evaluate outputs: the
scalar accuracies and all entries of the per-class rate arrays. -/
def allRecordedMetricValues : List ℚ :=
  recordedEvalCalls.flatMap fun c =>
    match c.result with
    | .scalar q => [q]
    | .mapping m => m.flatMap Prod.snd

/-- C6: every recorded metric value — the accuracy reported by
`evaluate('accuracy')` and every per-class rate reported by
`evaluate(['false_positive_rate', 'false_negative_rate'])` — lies in the
closed interval from 0 to 1. -/
theorem c6_metrics_in_unit_interval :
    ∀ q ∈ allRecordedMetricValues, 0 ≤ q ∧ q ≤ 1 := by
  decide

/-- C6, witness: the TensorFlow accuracy value is among the recorded
metric values and lies in the unit interval. -/
theorem c6_witness :
    mkRat 9671576433121019 10000000000000000 ∈ allRecordedMetricValues ∧
    (0 ≤ mkRat 9671576433121019 10000000000000000 ∧
     mkRat 9671576433121019 10000000000000000 ≤ 1) :=
  ⟨by decide,
   c6_metrics_in_unit_interval (mkRat 9671576433121019 10000000000000000)
     (by decide)⟩

/-- A run-time value held by a pipeline variable: a number (a batch
loss), a list of numbers (a loss history), or an external value we do
not inspect (prediction tensors, metrics accumulators). -/
inductive VarVal where
  | q (x : ℚ)
  | qlist (xs : List ℚ)
  | ext (tag : String)

/-- Modelled from the spec: the run-time state owned by the external
pipeline engine, which is not part of this repository — an abstract
model-weights version (changed exactly by model initialization and
training) and the named pipeline variables, newest binding first. -/
structure RunState where
  modelVersion : Nat
  vars : List (String × VarVal)

/-- The pipeline-variable name a step saves its result to, read from its
`save_to=V(...)` keyword argument. -/
def saveTarget (s : Step) : Option String :=
  match s.kwArgs.lookup "save_to" with
  | some (.tok "V" n) => some n
  | some (.tokM "V" n _) => some n
  | _ => none

/-- Append the numeric value of variable `src` to the list variable
`tgt` (the effect of `update_variable(tgt, V(src, mode='a'))`). -/
def appendFromVar (src tgt : String) (vars : List (String × VarVal)) :
    List (String × VarVal) :=
  match vars.lookup src, vars.lookup tgt with
  | some (.q x), some (.qlist xs) => (tgt, .qlist (xs ++ [x])) :: vars
  | _, _ => vars

/-- Whether a pipeline step creates or updates model weights.  Modelled
from the spec: of the pipeline operations used by the notebooks, only
model initialization and the train step touch the model; array
conversion, prediction, metrics gathering and variable steps read state
only. -/
def modelMutating (s : Step) : Bool :=
  s.method == "train_model" || s.method == "init_model"

/-- Modelled from the spec: the effect of one declarative pipeline step
on the run-time state when the engine (external to this repository)
executes it on one batch whose training loss is `loss`.  Model
initialization and training bump the model version; a train step saves
the batch loss to its `save_to` variable; predict and gather-metrics
steps save external values to their `save_to` variables;
`update_variable` with `V(src, mode='a')` appends the source variable's
value to the target list; variable initialization happens once per run
(see `initStep`), not per batch; array conversion touches no tracked
state. -/
def execStep (loss : ℚ) (st : RunState) (s : Step) : RunState :=
  match s.method with
  | "init_model" => { st with modelVersion := st.modelVersion + 1 }
  | "train_model" =>
      match saveTarget s with
      | some n =>
          { modelVersion := st.modelVersion + 1, vars := (n, .q loss) :: st.vars }
      | none => { st with modelVersion := st.modelVersion + 1 }
  | "predict_model" =>
      match saveTarget s with
      | some n => { st with vars := (n, .ext "predictions") :: st.vars }
      | none => st
  | "gather_metrics" =>
      match saveTarget s with
      | some n => { st with vars := (n, .ext "metrics") :: st.vars }
      | none => st
  | "update_variable" =>
      match s.posArgs with
      | [.str tgt, .tokM "V" src "a"] =>
          { st with vars := appendFromVar src tgt st.vars }
      | _ => st
  | _ => st

/-- Modelled from the spec: the once-per-run effect of a step — an
`init_variable(name, init_on_each_run=list)` step initializes the named
variable to an empty list at the start of each run; every other step has
no once-per-run effect on the tracked state. -/
def initStep (st : RunState) (s : Step) : RunState :=
  match s.method with
  | "init_variable" =>
      match s.posArgs, s.kwArgs.lookup "init_on_each_run" with
      | [.str n], some (.callable "list") =>
          { st with vars := (n, .qlist []) :: st.vars }
      | _, _ => st
  | _ => st

/-- Run the once-per-run initialization of every step, in order. -/
def initRun (steps : List Step) (st : RunState) : RunState :=
  steps.foldl initStep st

/-- Execute every step of a pipeline, in order, on one batch whose
training loss is `loss`. -/
def execBatch (steps : List Step) (loss : ℚ) (st : RunState) : RunState :=
  steps.foldl (execStep loss) st

/-- Modelled from the spec: a full pipeline run — initialize the
variables once, then execute the steps on each batch in order, the
batches' training losses being `losses`. -/
def runPipeline (steps : List Step) (losses : List ℚ) (st : RunState) : RunState :=
  losses.foldl (fun acc l => execBatch steps l acc) (initRun steps st)

/-- The length of the `loss_history` variable in a state, when it holds
a list. -/
def lossHistoryLength (st : RunState) : Option Nat :=
  match st.vars.lookup "loss_history" with
  | some (.qlist xs) => some xs.length
  | _ => none

theorem appendFromVar_current_loss (l : ℚ) (vs : List (String × VarVal))
    (xs : List ℚ) (h : vs.lookup "loss_history" = some (.qlist xs)) :
    appendFromVar "current_loss" "loss_history" (("current_loss", VarVal.q l) :: vs)
      = ("loss_history", .qlist (xs ++ [l])) :: ("current_loss", VarVal.q l) :: vs := by
  simp [appendFromVar, List.lookup, h]

theorem execBatch_torchTrain (l : ℚ) (st : RunState) (xs : List ℚ)
    (h : st.vars.lookup "loss_history" = some (.qlist xs)) :
    (execBatch torchTrainSteps l st).vars.lookup "loss_history"
      = some (.qlist (xs ++ [l])) := by
  have hb : execBatch torchTrainSteps l st
      = { modelVersion := st.modelVersion + 1 + 1,
          vars := appendFromVar "current_loss" "loss_history"
                    (("current_loss", VarVal.q l) :: st.vars) } := rfl
  rw [hb]
  rw [appendFromVar_current_loss l st.vars xs h]
  simp [List.lookup]

theorem execBatch_tfTrain (l : ℚ) (st : RunState) (xs : List ℚ)
    (h : st.vars.lookup "loss_history" = some (.qlist xs)) :
    (execBatch tfTrainSteps l st).vars.lookup "loss_history"
      = some (.qlist (xs ++ [l])) := by
  have hb : execBatch tfTrainSteps l st
      = { modelVersion := st.modelVersion + 1 + 1,
          vars := appendFromVar "current_loss" "loss_history"
                    (("current_loss", VarVal.q l) :: st.vars) } := rfl
  rw [hb]
  rw [appendFromVar_current_loss l st.vars xs h]
  simp [List.lookup]

theorem foldl_execBatch_append (S : List Step)
    (hstep : ∀ (l : ℚ) (st : RunState) (xs : List ℚ),
      st.vars.lookup "loss_history" = some (.qlist xs) →
      (execBatch S l st).vars.lookup "loss_history" = some (.qlist (xs ++ [l]))) :
    ∀ (losses : List ℚ) (st : RunState) (xs : List ℚ),
      st.vars.lookup "loss_history" = some (.qlist xs) →
      ((losses.foldl (fun acc l => execBatch S l acc) st).vars.lookup "loss_history")
        = some (.qlist (xs ++ losses)) := by
  intro losses
  induction losses with
  | nil => intro st xs h; simpa using h
  | cons l ls ih =>
      intro st xs h
      rw [List.foldl_cons]
      have := ih (execBatch S l st) (xs ++ [l]) (hstep l st xs h)
      simpa using this

/-- C9: in both training templates the `train_model` step saves the
batch loss to the variable `current_loss` (via `save_to=V('current_loss')`)
and is immediately followed by `update_variable('loss_history',
V('current_loss', mode='a'))`; consequently, running the training
pipeline over any sequence of batches leaves `loss_history` holding
exactly the per-batch losses in batch-execution order, so its length is
the number of batches trained. -/
theorem c9_loss_history_per_batch (losses : List ℚ) :
    (torchTrainSteps.get? 4).map Step.method = some "train_model" ∧
    (torchTrainSteps.get? 4).map saveTarget = some (some "current_loss") ∧
    torchTrainSteps.get? 5 =
      some ⟨"update_variable",
            [.str "loss_history", .tokM "V" "current_loss" "a"], []⟩ ∧
    (tfTrainSteps.get? 4).map Step.method = some "train_model" ∧
    (tfTrainSteps.get? 4).map saveTarget = some (some "current_loss") ∧
    tfTrainSteps.get? 5 =
      some ⟨"update_variable",
            [.str "loss_history", .tokM "V" "current_loss" "a"], []⟩ ∧
    (runPipeline torchTrainSteps losses ⟨0, []⟩).vars.lookup "loss_history"
      = some (.qlist losses) ∧
    (runPipeline tfTrainSteps losses ⟨0, []⟩).vars.lookup "loss_history"
      = some (.qlist losses) ∧
    lossHistoryLength (runPipeline torchTrainSteps losses ⟨0, []⟩)
      = some losses.length ∧
    lossHistoryLength (runPipeline tfTrainSteps losses ⟨0, []⟩)
      = some losses.length := by
  have hinit : (initRun torchTrainSteps ⟨0, []⟩).vars.lookup "loss_history"
      = some (VarVal.qlist []) := rfl
  have hinit2 : (initRun tfTrainSteps ⟨0, []⟩).vars.lookup "loss_history"
      = some (VarVal.qlist []) := rfl
  have h1 : (runPipeline torchTrainSteps losses ⟨0, []⟩).vars.lookup "loss_history"
      = some (.qlist losses) := by
    have := foldl_execBatch_append torchTrainSteps execBatch_torchTrain losses
      (initRun torchTrainSteps ⟨0, []⟩) [] hinit
    simpa [runPipeline] using this
  have h2 : (runPipeline tfTrainSteps losses ⟨0, []⟩).vars.lookup "loss_history"
      = some (.qlist losses) := by
    have := foldl_execBatch_append tfTrainSteps execBatch_tfTrain losses
      (initRun tfTrainSteps ⟨0, []⟩) [] hinit2
    simpa [runPipeline] using this
  refine ⟨rfl, rfl, rfl, rfl, rfl, rfl, h1, h2, ?_, ?_⟩
  · simp [lossHistoryLength, h1]
  · simp [lossHistoryLength, h2]

theorem execBatch_test_modelVersion :
    (∀ (l : ℚ) (st : RunState),
      (execBatch torchTestSteps l st).modelVersion = st.modelVersion) ∧
    (∀ (l : ℚ) (st : RunState),
      (execBatch tfTestSteps l st).modelVersion = st.modelVersion) :=
  ⟨fun _ _ => rfl, fun _ _ => rfl⟩

theorem foldl_execBatch_modelVersion (S : List Step)
    (h : ∀ (l : ℚ) (st : RunState),
      (execBatch S l st).modelVersion = st.modelVersion) :
    ∀ (losses : List ℚ) (st : RunState),
      (losses.foldl (fun acc l => execBatch S l acc) st).modelVersion
        = st.modelVersion := by
  intro losses
  induction losses with
  | nil => intro st; rfl
  | cons l ls ih => intro st; rw [List.foldl_cons, ih, h]

/-- C8: neither test pipeline contains a `train_model` or `init_model`
step; each obtains the trained model solely via
`import_model('conv_nn', train_pipeline)` as its first step, and the
only other step naming the model `conv_nn` is `predict_model`.  A step
that is not `train_model` or `init_model` never changes the model
weights, so running the test pipeline — over any batches and from any
state — leaves the model version unchanged. -/
theorem c8_test_pipeline_frame :
    (torchTestSteps.all fun s => !modelMutating s) = true ∧
    (tfTestSteps.all fun s => !modelMutating s) = true ∧
    torchTestSteps.get? 0 =
      some ⟨"import_model", [.str "conv_nn", .pipelineRef "train_pipeline"], []⟩ ∧
    tfTestSteps.get? 0 =
      some ⟨"import_model", [.str "conv_nn", .pipelineRef "train_pipeline"], []⟩ ∧
    ((torchTestSteps.filter fun s => s.posArgs.any fun v =>
        match v with | .str n => n == "conv_nn" | _ => false).map Step.method)
      = ["import_model", "predict_model"] ∧
    ((tfTestSteps.filter fun s => s.posArgs.any fun v =>
        match v with | .str n => n == "conv_nn" | _ => false).map Step.method)
      = ["import_model", "predict_model"] ∧
    (∀ (l : ℚ) (st : RunState) (s : Step), modelMutating s = false →
      (execStep l st s).modelVersion = st.modelVersion) ∧
    (∀ (losses : List ℚ) (st : RunState),
      (runPipeline torchTestSteps losses st).modelVersion = st.modelVersion) ∧
    (∀ (losses : List ℚ) (st : RunState),
      (runPipeline tfTestSteps losses st).modelVersion = st.modelVersion) := by
  refine ⟨by decide, by decide, rfl, rfl, rfl, rfl, ?_, ?_, ?_⟩
  · intro l st s hs
    unfold execStep
    split
    · exfalso; simp_all [modelMutating]
    · exfalso; simp_all [modelMutating]
    · split <;> rfl
    · split <;> rfl
    · split <;> rfl
    · rfl
  · intro losses st
    have hi : initRun torchTestSteps st = st := rfl
    have := foldl_execBatch_modelVersion torchTestSteps
      execBatch_test_modelVersion.1 losses (initRun torchTestSteps st)
    simpa [runPipeline, hi] using this
  · intro losses st
    have hi : initRun tfTestSteps st = st := rfl
    have := foldl_execBatch_modelVersion tfTestSteps
      execBatch_test_modelVersion.2 losses (initRun tfTestSteps st)
    simpa [runPipeline, hi] using this

/-- C8, witness: the `to_array` step is not model-mutating, and
executing it on a concrete state leaves the model version at its
starting value. -/
theorem c8_witness :
    modelMutating ⟨"to_array", [], []⟩ = false ∧
    (execStep 0 ⟨3, []⟩ ⟨"to_array", [], []⟩).modelVersion = 3 :=
  ⟨rfl, c8_test_pipeline_frame.2.2.2.2.2.2.1 0 ⟨3, []⟩ ⟨"to_array", [], []⟩ rfl⟩

/-- Modelled from the spec: the external engine's batch generation,
which is not part of this repository — the dataset's sample indices are
cut into consecutive batches of `bs` samples; with `dropLast` an
incomplete final batch is dropped, without it the final batch may be
shorter. -/
def splitBatches (bs : Nat) (dropLast : Bool) : List Nat → List (List Nat)
  | [] => []
  | x :: xs =>
      if h : bs = 0 then []
      else if dropLast = true ∧ xs.length + 1 < bs then []
      else (x :: xs).take bs :: splitBatches bs dropLast ((x :: xs).drop bs)
termination_by l => l.length
decreasing_by
  simp only [List.length_drop, List.length_cons]
  omega

theorem splitBatches_join_false (bs : Nat) (hbs : 0 < bs) :
    ∀ l : List Nat, (splitBatches bs false l).flatten = l := by
  have key : ∀ (n : Nat) (l : List Nat), l.length ≤ n →
      (splitBatches bs false l).flatten = l := by
    intro n
    induction n with
    | zero =>
        intro l hl
        have : l = [] := List.eq_nil_of_length_eq_zero (Nat.le_zero.mp hl)
        subst this; simp [splitBatches]
    | succ n ih =>
        intro l hl
        match l with
        | [] => simp [splitBatches]
        | x :: xs =>
            rw [splitBatches]
            rw [dif_neg (Nat.pos_iff_ne_zero.mp hbs)]
            have hcond : ¬ ((false : Bool) = true ∧ xs.length + 1 < bs) := by
              simp
            rw [if_neg hcond]
            rw [List.flatten_cons]
            have hlen : ((x :: xs).drop bs).length ≤ n := by
              simp only [List.length_drop, List.length_cons]
              simp only [List.length_cons] at hl
              omega
            rw [ih ((x :: xs).drop bs) hlen]
            exact List.take_append_drop bs (x :: xs)
  intro l
  exact key l.length l le_rfl

theorem splitBatches_join_true (bs : Nat) (hbs : 0 < bs) :
    ∀ l : List Nat, (splitBatches bs true l).flatten
      = l.take (bs * (l.length / bs)) := by
  have key : ∀ (n : Nat) (l : List Nat), l.length ≤ n →
      (splitBatches bs true l).flatten = l.take (bs * (l.length / bs)) := by
    intro n
    induction n with
    | zero =>
        intro l hl
        have : l = [] := List.eq_nil_of_length_eq_zero (Nat.le_zero.mp hl)
        subst this; simp [splitBatches]
    | succ n ih =>
        intro l hl
        match l with
        | [] => simp [splitBatches]
        | x :: xs =>
            rw [splitBatches]
            rw [dif_neg (Nat.pos_iff_ne_zero.mp hbs)]
            by_cases hshort : xs.length + 1 < bs
            · rw [if_pos ⟨rfl, hshort⟩]
              have hdiv : (x :: xs).length / bs = 0 := by
                apply Nat.div_eq_of_lt
                simpa using hshort
              rw [hdiv, Nat.mul_zero, List.take_zero]
              rfl
            · rw [if_neg (by simp [hshort])]
              rw [List.flatten_cons]
              have hlen : ((x :: xs).drop bs).length ≤ n := by
                simp only [List.length_drop, List.length_cons]
                simp only [List.length_cons] at hl
                omega
              rw [ih ((x :: xs).drop bs) hlen]
              have hge : bs ≤ (x :: xs).length := by
                simp only [List.length_cons]; omega
              have hdiv : (x :: xs).length / bs
                  = ((x :: xs).length - bs) / bs + 1 :=
                Nat.div_eq_sub_div hbs hge
              rw [List.length_drop, hdiv, Nat.mul_add, Nat.mul_one,
                Nat.add_comm, List.take_add]
  intro l
  exact key l.length l le_rfl

/-- C10: the training runs of both notebooks pass `drop_last=True` and
the test runs pass `drop_last=False`; consequently (under the engine's
batching, modelled from the spec) for a split of `n` samples with `n`
not a multiple of the batch size, training processes only the first
`bs * (n / bs)` samples — the incomplete final batch is discarded, so
fewer than `n` samples are trained on — whereas the test run's batches
concatenate back to exactly the full sample list, every sample appearing
exactly once per epoch, in order. -/
theorem c10_drop_last_semantics :
    torchTrainRun.kwArgs.lookup "drop_last" = some (.boolean true) ∧
    tfTrainRun.kwArgs.lookup "drop_last" = some (.boolean true) ∧
    torchTestRun.kwArgs.lookup "drop_last" = some (.boolean false) ∧
    tfTestRun.kwArgs.lookup "drop_last" = some (.boolean false) ∧
    ∀ n bs : Nat, 0 < bs → ¬ bs ∣ n →
      (splitBatches bs true (List.range n)).flatten
          = (List.range n).take (bs * (n / bs)) ∧
      ((splitBatches bs true (List.range n)).flatten).length < n ∧
      (splitBatches bs false (List.range n)).flatten = List.range n := by
  refine ⟨rfl, rfl, rfl, rfl, ?_⟩
  intro n bs hbs hnd
  have hjt : (splitBatches bs true (List.range n)).flatten
      = (List.range n).take (bs * (n / bs)) := by
    have := splitBatches_join_true bs hbs (List.range n)
    simpa using this
  have hle : bs * (n / bs) ≤ n := by
    calc bs * (n / bs) = n / bs * bs := Nat.mul_comm _ _
    _ ≤ n := Nat.div_mul_le_self n bs
  have hne : bs * (n / bs) ≠ n := by
    intro h
    exact hnd ⟨n / bs, h.symm⟩
  refine ⟨hjt, ?_, ?_⟩
  · rw [hjt]
    rw [List.length_take, List.length_range]
    omega
  · exact splitBatches_join_false bs hbs (List.range n)

/-- C10, witness: with seven samples and batch size three, the
hypotheses hold and the batching facts follow at this concrete input. -/
theorem c10_witness :
    (0 < 3 ∧ ¬ (3 ∣ 7)) ∧
    ((splitBatches 3 true (List.range 7)).flatten
        = (List.range 7).take (3 * (7 / 3)) ∧
     ((splitBatches 3 true (List.range 7)).flatten).length < 7 ∧
     (splitBatches 3 false (List.range 7)).flatten = List.range 7) :=
  ⟨⟨by decide, by decide⟩,
   c10_drop_last_semantics.2.2.2.2 7 3 (by decide) (by decide)⟩
